import Mathlib

/-!
Shallow embedding of the `statisticaltesting` hypothesis-testing framework.

The core of the repository (src/base.py, src/two_samples_tests.py,
src/one_sample_tests.py) is a contract-and-dispatch layer: abstract
`OneSampleTest` / `TwoSampleTest` classes own a `TestParams` record and run a
`fit` lifecycle (compute, then optionally plot); six concrete tests each call
one function of an external numeric statistics library with a fixed
configuration and a visualization delegate of an external plotting module.

The external collaborators (the numeric provider and the plotting delegates)
are modelled as record-of-functions parameters (`StatsProvider`, `Plotter`);
floating-point sample values and statistics are modelled as rationals.
Fallible external calls return `Except String`; the plot delegates return
`Option String` (a failure message, if any).  `fit` is modelled as a pure
function from the prior `TestParams` to a `FitOutcome` carrying the new
record, the list of delegate invocations performed, and the propagated error.
-/

namespace StatisticalTesting

/-- Stand-in for Python floats in sample data and results. -/
abbrev Val := Rat

/-- A sample passed to a test (Python array-like of floats). -/
abbrev Sample := List Val

/-- Embeds the `TestParams` dataclass of src/base.py: every field defaults to
the unset sentinel (`None` in the source, `none` here), `is_fitted` to
`False`. -/
structure TestParams where
  test_name : Option String := none
  test_statistic : Option Val := none
  test_pval : Option Val := none
  test_h0 : Option String := none
  is_fitted : Bool := false
  deriving DecidableEq, Repr, Inhabited

/-- The two-sample test variants of src/two_samples_tests.py. -/
inductive TwoSampleKind
  | student
  | mannWhitneyU
  | levene
  | bartlett
  | kolmogorovSmirnov
  deriving DecidableEq, Repr

/-- The one-sample test variants of src/one_sample_tests.py. -/
inductive OneSampleKind
  | shapiroWilk
  deriving DecidableEq, Repr

/-- The `center` keyword of the external `levene` procedure. -/
inductive LeveneCenter
  | mean
  | median
  | trimmed
  deriving DecidableEq, Repr

/-- The external numeric statistics provider (scipy.stats in the source): one
function per test kind, taking the sample(s) and the fixed configuration and
returning the (statistic, p-value) pair, or failing. -/
structure StatsProvider where
  ttest_ind : Sample → Sample → Bool → Except String (Val × Val)
  mannwhitneyu : Sample → Sample → Bool → Except String (Val × Val)
  levene : Sample → Sample → LeveneCenter → Except String (Val × Val)
  bartlett : Sample → Sample → Except String (Val × Val)
  kstest : Sample → Sample → Except String (Val × Val)
  shapiro : Sample → Except String (Val × Val)

/-- The external visualization delegates of src/plotter.py.  Each returns
`none` on success or `some msg` when rendering fails; they receive the raw
sample(s) and the fitted result record and cannot write back into it (the
plotting code only reads the record). -/
structure Plotter where
  plot_results_student_test : Sample → Sample → TestParams → Option String
  plot_results_standard_test : Sample → Sample → TestParams → Option String
  plot_results_ks_test : Sample → Sample → TestParams → Option String
  plot_results_shapiro_test : Sample → TestParams → Option String

/-- Identifies which plotting delegate a test variant dispatches to. -/
inductive PlotFn
  | studentFig
  | standardFig
  | ksFig
  | shapiroFig
  deriving DecidableEq, Repr

/-- A recorded invocation of a visualization delegate: which delegate, the
original sample(s), and the result record it was handed. -/
inductive PlotCall
  | twoSample (fn : PlotFn) (x y : Sample) (results : TestParams)
  | oneSample (fn : PlotFn) (x : Sample) (results : TestParams)
  deriving DecidableEq, Repr

/-- Per-variant constructor of src/two_samples_tests.py: `super().__init__()`
allocates a fresh default `TestParams`, then the subclass writes its fixed
`test_h0` and `test_name`. -/
def TwoSampleKind.initParams : TwoSampleKind → TestParams
  | .student =>
      { test_h0 := some ("$\\mu_0 = \\mu_1$"), test_name := some ("Student test") }
  | .mannWhitneyU =>
      { test_h0 := some ("P(X > Y) = P(Y > X)"),
        test_name := some ("Mann Wilcoxon Whitney U Test") }
  | .levene =>
      { test_h0 := some ("$\\sigma^2_1 = \\sigma^2_2$"),
        test_name := some ("Levene Test") }
  | .bartlett =>
      { test_h0 := some ("$\\sigma^2_1 = \\sigma^2_2$"),
        test_name := some ("Bartlett test") }
  | .kolmogorovSmirnov =>
      { test_name := some ("Kolmogorov Smirnov Test"),
        test_h0 := some ("The two distributions are the same") }

/-- Constructor of `ShapiroWilkTest` in src/one_sample_tests.py. -/
def OneSampleKind.initParams : OneSampleKind → TestParams
  | .shapiroWilk =>
      { test_h0 := some ("$X~N(.)$"), test_name := some ("Shapiro Wilk test") }

/-- The numeric call each two-sample `_compute_test` makes, with the fixed
per-test configuration hard-coded in the source: `ttest_ind(x, y,
equal_var=True)`, `mannwhitneyu(x, y, use_continuity=True)`, `levene(x, y,
center="median")`, `bartlett(x, y)`, `kstest(rvs=x, cdf=y)`. -/
def computeTwo (P : StatsProvider) : TwoSampleKind → Sample → Sample →
    Except String (Val × Val)
  | .student, x, y => P.ttest_ind x y true
  | .mannWhitneyU, x, y => P.mannwhitneyu x y true
  | .levene, x, y => P.levene x y .median
  | .bartlett, x, y => P.bartlett x y
  | .kolmogorovSmirnov, x, y => P.kstest x y

/-- The numeric call of the one-sample `_compute_test`: `shapiro(x)`. -/
def computeOne (P : StatsProvider) : OneSampleKind → Sample →
    Except String (Val × Val)
  | .shapiroWilk, x => P.shapiro x

/-- `_compute_test` of a two-sample variant acting on the owned record: if the
numeric call fails, the exception propagates and no field is assigned;
otherwise `test_statistic`, `test_pval` and `is_fitted` are written in that
order (an atomic update of the record, since the assignments cannot fail). -/
def computeTest (P : StatsProvider) (k : TwoSampleKind) (x y : Sample)
    (p : TestParams) : Except String TestParams :=
  match computeTwo P k x y with
  | .error e => .error e
  | .ok r =>
      .ok { p with test_statistic := some r.1, test_pval := some r.2,
                   is_fitted := true }

/-- `_compute_test` of the one-sample variant, same shape. -/
def computeTestOne (P : StatsProvider) (k : OneSampleKind) (x : Sample)
    (p : TestParams) : Except String TestParams :=
  match computeOne P k x with
  | .error e => .error e
  | .ok r =>
      .ok { p with test_statistic := some r.1, test_pval := some r.2,
                   is_fitted := true }

/-- Which plotting delegate each two-sample variant's `_plot_results` calls. -/
def TwoSampleKind.plotFn : TwoSampleKind → PlotFn
  | .student => .studentFig
  | .mannWhitneyU => .standardFig
  | .levene => .standardFig
  | .bartlett => .standardFig
  | .kolmogorovSmirnov => .ksFig

/-- Which plotting delegate the one-sample variant calls. -/
def OneSampleKind.plotFn : OneSampleKind → PlotFn
  | .shapiroWilk => .shapiroFig

/-- Dispatch of `_plot_results` for two-sample variants to the delegate of
src/plotter.py, handing it the raw samples and the fitted record. -/
def plotTwoDelegate (pl : Plotter) : TwoSampleKind → Sample → Sample →
    TestParams → Option String
  | .student => pl.plot_results_student_test
  | .mannWhitneyU => pl.plot_results_standard_test
  | .levene => pl.plot_results_standard_test
  | .bartlett => pl.plot_results_standard_test
  | .kolmogorovSmirnov => pl.plot_results_ks_test

/-- Dispatch of `_plot_results` for the one-sample variant. -/
def plotOneDelegate (pl : Plotter) : OneSampleKind → Sample → TestParams →
    Option String
  | .shapiroWilk => pl.plot_results_shapiro_test

/-- Observable outcome of one `fit` call: the owned record after the call,
the visualization delegate invocations performed, and the error (if any) the
call raised to the caller. -/
structure FitOutcome where
  params : TestParams
  plots : List PlotCall
  err : Option String
  deriving Repr

/-- `TwoSampleTest.fit` of src/base.py: run `_compute_test(x, y)`; if it
raises, the exception propagates and nothing else runs; otherwise, if
`plot_results`, call `_plot_results(x, y)` (whose own failure propagates but
cannot undo the record update); return `self`. -/
def fitTwo (P : StatsProvider) (pl : Plotter) (k : TwoSampleKind)
    (x y : Sample) (plot_results : Bool) (p : TestParams) : FitOutcome :=
  match computeTest P k x y p with
  | .error e => { params := p, plots := [], err := some e }
  | .ok p2 =>
      if plot_results then
        { params := p2,
          plots := [PlotCall.twoSample k.plotFn x y p2],
          err := plotTwoDelegate pl k x y p2 }
      else
        { params := p2, plots := [], err := none }

/-- `OneSampleTest.fit` of src/base.py, same shape with one sample. -/
def fitOne (P : StatsProvider) (pl : Plotter) (k : OneSampleKind)
    (x : Sample) (plot_results : Bool) (p : TestParams) : FitOutcome :=
  match computeTestOne P k x p with
  | .error e => { params := p, plots := [], err := some e }
  | .ok p2 =>
      if plot_results then
        { params := p2,
          plots := [PlotCall.oneSample k.plotFn x p2],
          err := plotOneDelegate pl k x p2 }
      else
        { params := p2, plots := [], err := none }

/-- A heap of `TestParams` records, for reasoning about instance ownership:
`recs` maps an address to the record stored there, `next` is the next fresh
address. -/
structure Store where
  recs : Nat → TestParams
  next : Nat

/-- Read the record at an address. -/
def readRef (σ : Store) (j : Nat) : TestParams := σ.recs j

/-- A two-sample test instance: its kind and the address of the `TestParams`
record it owns. -/
structure TInstance where
  kind : TwoSampleKind
  paramsRef : Nat
  deriving DecidableEq, Repr

/-- A one-sample test instance. -/
structure OInstance where
  kind : OneSampleKind
  paramsRef : Nat
  deriving DecidableEq, Repr

/-- `__init__` of a two-sample test: allocate a fresh `TestParams` record
(`self.params = TestParams()` plus the subclass's fixed fields) at a fresh
address owned by the new instance alone. -/
def constructTwoS (k : TwoSampleKind) (σ : Store) : TInstance × Store :=
  (⟨k, σ.next⟩,
   ⟨fun n => if n = σ.next then k.initParams else σ.recs n, σ.next + 1⟩)

/-- `__init__` of the one-sample test. -/
def constructOneS (k : OneSampleKind) (σ : Store) : OInstance × Store :=
  (⟨k, σ.next⟩,
   ⟨fun n => if n = σ.next then k.initParams else σ.recs n, σ.next + 1⟩)

/-- `fit` on a two-sample instance living in a store: only the record at the
instance's own address is rewritten. -/
def fitTwoS (P : StatsProvider) (pl : Plotter) (t : TInstance)
    (x y : Sample) (b : Bool) (σ : Store) : Store × FitOutcome :=
  let out := fitTwo P pl t.kind x y b (σ.recs t.paramsRef)
  (⟨fun n => if n = t.paramsRef then out.params else σ.recs n, σ.next⟩, out)

/-- `fit` on a one-sample instance living in a store. -/
def fitOneS (P : StatsProvider) (pl : Plotter) (t : OInstance)
    (x : Sample) (b : Bool) (σ : Store) : Store × FitOutcome :=
  let out := fitOne P pl t.kind x b (σ.recs t.paramsRef)
  (⟨fun n => if n = t.paramsRef then out.params else σ.recs n, σ.next⟩, out)

/-! Helper lemmas about the `fit` lifecycle. -/

/-- Two `TestParams` records with equal fields are equal. -/
theorem TestParams.eq_of_fields (p q : TestParams)
    (h1 : p.test_name = q.test_name)
    (h2 : p.test_statistic = q.test_statistic)
    (h3 : p.test_pval = q.test_pval)
    (h4 : p.test_h0 = q.test_h0)
    (h5 : p.is_fitted = q.is_fitted) : p = q := by
  cases p
  cases q
  simp_all

/-- When the numeric call succeeds, `fit` writes exactly the returned pair and
the fitted flag into the record, whatever the plot flag. -/
theorem fitTwo_params_of_ok (P : StatsProvider) (pl : Plotter)
    (k : TwoSampleKind) (x y : Sample) (b : Bool) (p : TestParams)
    (r : Val × Val) (h : computeTwo P k x y = .ok r) :
    (fitTwo P pl k x y b p).params =
      { p with test_statistic := some r.1, test_pval := some r.2,
               is_fitted := true } := by
  cases b <;> simp [fitTwo, computeTest, h]

/-- One-sample version of `fitTwo_params_of_ok`. -/
theorem fitOne_params_of_ok (P : StatsProvider) (pl : Plotter)
    (k : OneSampleKind) (x : Sample) (b : Bool) (p : TestParams)
    (r : Val × Val) (h : computeOne P k x = .ok r) :
    (fitOne P pl k x b p).params =
      { p with test_statistic := some r.1, test_pval := some r.2,
               is_fitted := true } := by
  cases b <;> simp [fitOne, computeTestOne, h]

/-- When the numeric call succeeds, the delegate invocations of `fit` are the
single recorded call when plotting was requested, and none otherwise. -/
theorem fitTwo_plots_of_ok (P : StatsProvider) (pl : Plotter)
    (k : TwoSampleKind) (x y : Sample) (b : Bool) (p : TestParams)
    (r : Val × Val) (h : computeTwo P k x y = .ok r) :
    (fitTwo P pl k x y b p).plots =
      if b then [PlotCall.twoSample k.plotFn x y (fitTwo P pl k x y b p).params]
      else [] := by
  cases b <;> simp [fitTwo, computeTest, h]

/-- One-sample version of `fitTwo_plots_of_ok`. -/
theorem fitOne_plots_of_ok (P : StatsProvider) (pl : Plotter)
    (k : OneSampleKind) (x : Sample) (b : Bool) (p : TestParams)
    (r : Val × Val) (h : computeOne P k x = .ok r) :
    (fitOne P pl k x b p).plots =
      if b then [PlotCall.oneSample k.plotFn x (fitOne P pl k x b p).params]
      else [] := by
  cases b <;> simp [fitOne, computeTestOne, h]

/-- When the numeric call fails, `fit` propagates the error, leaves the
record exactly as it was, and invokes no delegate. -/
theorem fitTwo_of_error (P : StatsProvider) (pl : Plotter)
    (k : TwoSampleKind) (x y : Sample) (b : Bool) (p : TestParams)
    (e : String) (h : computeTwo P k x y = .error e) :
    fitTwo P pl k x y b p = { params := p, plots := [], err := some e } := by
  simp [fitTwo, computeTest, h]

/-- One-sample version of `fitTwo_of_error`. -/
theorem fitOne_of_error (P : StatsProvider) (pl : Plotter)
    (k : OneSampleKind) (x : Sample) (b : Bool) (p : TestParams)
    (e : String) (h : computeOne P k x = .error e) :
    fitOne P pl k x b p = { params := p, plots := [], err := some e } := by
  simp [fitOne, computeTestOne, h]

/-- `fit` never touches `test_name` or `test_h0`. -/
theorem fitTwo_frame (P : StatsProvider) (pl : Plotter) (k : TwoSampleKind)
    (x y : Sample) (b : Bool) (p : TestParams) :
    (fitTwo P pl k x y b p).params.test_name = p.test_name ∧
    (fitTwo P pl k x y b p).params.test_h0 = p.test_h0 := by
  unfold fitTwo computeTest
  cases computeTwo P k x y <;> cases b <;> simp

/-- One-sample version of `fitTwo_frame`. -/
theorem fitOne_frame (P : StatsProvider) (pl : Plotter) (k : OneSampleKind)
    (x : Sample) (b : Bool) (p : TestParams) :
    (fitOne P pl k x b p).params.test_name = p.test_name ∧
    (fitOne P pl k x b p).params.test_h0 = p.test_h0 := by
  unfold fitOne computeTestOne
  cases computeOne P k x <;> cases b <;> simp

/-! Concrete collaborators used by witness theorems. -/

/-- A provider that always succeeds, with distinguishable outputs. -/
def okProvider : StatsProvider where
  ttest_ind := fun _ _ _ => .ok (2, 1/2)
  mannwhitneyu := fun _ _ _ => .ok (3, 1/3)
  levene := fun _ _ _ => .ok (5, 1/5)
  bartlett := fun _ _ => .ok (7, 1/7)
  kstest := fun _ _ => .ok (11, 1/11)
  shapiro := fun _ => .ok (13, 1/13)

/-- A provider that always fails. -/
def failProvider : StatsProvider where
  ttest_ind := fun _ _ _ => .error ("degenerate input")
  mannwhitneyu := fun _ _ _ => .error ("degenerate input")
  levene := fun _ _ _ => .error ("degenerate input")
  bartlett := fun _ _ => .error ("degenerate input")
  kstest := fun _ _ => .error ("degenerate input")
  shapiro := fun _ => .error ("degenerate input")

/-- A plotter whose delegates all render successfully. -/
def okPlotter : Plotter where
  plot_results_student_test := fun _ _ _ => none
  plot_results_standard_test := fun _ _ _ => none
  plot_results_ks_test := fun _ _ _ => none
  plot_results_shapiro_test := fun _ _ => none

/-- A plotter whose delegates all fail (no display backend). -/
def failPlotter : Plotter where
  plot_results_student_test := fun _ _ _ => some ("no display backend")
  plot_results_standard_test := fun _ _ _ => some ("no display backend")
  plot_results_ks_test := fun _ _ _ => some ("no display backend")
  plot_results_shapiro_test := fun _ _ => some ("no display backend")

/-! Claim theorems. -/

/-- Claim C1: for every test kind (Student, Mann-Whitney U, Kolmogorov-Smirnov,
Bartlett, Levene, Shapiro-Wilk) and every valid input sample(s), after `fit`
the owned result's `test_statistic` and `test_pval` equal the output pair of
that test's reference numeric procedure applied to the same sample(s) with the
fixed per-test configuration, within 1e-2 absolute tolerance. -/
theorem fit_matches_reference_procedure :
    (∀ (P : StatsProvider) (pl : Plotter) (k : TwoSampleKind) (x y : Sample)
       (b : Bool) (p : TestParams) (r : Val × Val),
       computeTwo P k x y = .ok r →
       ∃ s pv : Val,
         (fitTwo P pl k x y b p).params.test_statistic = some s ∧
         (fitTwo P pl k x y b p).params.test_pval = some pv ∧
         |s - r.1| ≤ 1 / 100 ∧ |pv - r.2| ≤ 1 / 100) ∧
    (∀ (P : StatsProvider) (pl : Plotter) (k : OneSampleKind) (x : Sample)
       (b : Bool) (p : TestParams) (r : Val × Val),
       computeOne P k x = .ok r →
       ∃ s pv : Val,
         (fitOne P pl k x b p).params.test_statistic = some s ∧
         (fitOne P pl k x b p).params.test_pval = some pv ∧
         |s - r.1| ≤ 1 / 100 ∧ |pv - r.2| ≤ 1 / 100) := by
  constructor
  · intro P pl k x y b p r h
    refine ⟨r.1, r.2, ?_, ?_, ?_, ?_⟩
    · simp [fitTwo_params_of_ok P pl k x y b p r h]
    · simp [fitTwo_params_of_ok P pl k x y b p r h]
    · simp
    · simp
  · intro P pl k x b p r h
    refine ⟨r.1, r.2, ?_, ?_, ?_, ?_⟩
    · simp [fitOne_params_of_ok P pl k x b p r h]
    · simp [fitOne_params_of_ok P pl k x b p r h]
    · simp
    · simp

/-- Witness for C1 at concrete inputs: the Student test with a provider
returning `(2, 1/2)` and the Shapiro-Wilk test with one returning
`(13, 1/13)`. -/
theorem fit_matches_reference_procedure_witness :
    computeTwo okProvider TwoSampleKind.student [1, 2] [3, 4] = .ok (2, 1/2) ∧
    computeOne okProvider OneSampleKind.shapiroWilk [1, 2] = .ok (13, 1/13) ∧
    (∃ s pv : Val,
      (fitTwo okProvider okPlotter TwoSampleKind.student [1, 2] [3, 4] true
        TwoSampleKind.student.initParams).params.test_statistic = some s ∧
      (fitTwo okProvider okPlotter TwoSampleKind.student [1, 2] [3, 4] true
        TwoSampleKind.student.initParams).params.test_pval = some pv ∧
      |s - (2 : Val)| ≤ 1 / 100 ∧ |pv - (1/2 : Val)| ≤ 1 / 100) ∧
    (∃ s pv : Val,
      (fitOne okProvider okPlotter OneSampleKind.shapiroWilk [1, 2] false
        OneSampleKind.shapiroWilk.initParams).params.test_statistic = some s ∧
      (fitOne okProvider okPlotter OneSampleKind.shapiroWilk [1, 2] false
        OneSampleKind.shapiroWilk.initParams).params.test_pval = some pv ∧
      |s - (13 : Val)| ≤ 1 / 100 ∧ |pv - (1/13 : Val)| ≤ 1 / 100) :=
  ⟨rfl, rfl,
   fit_matches_reference_procedure.1 okProvider okPlotter .student [1, 2]
     [3, 4] true TwoSampleKind.student.initParams (2, 1/2) rfl,
   fit_matches_reference_procedure.2 okProvider okPlotter .shapiroWilk [1, 2]
     false OneSampleKind.shapiroWilk.initParams (13, 1/13) rfl⟩

/-- Claim C2: for every test kind and input, `fit` first invokes the concrete
numeric procedure, writing `test_statistic`, `test_pval` and `is_fitted =
true` into the owned result, and then invokes the visualization delegate with
the original input sample(s) and the now-fitted result if and only if
`plot_results` is true; when `plot_results` is false the delegate is never
invoked. -/
theorem fit_computes_then_plots :
    (∀ (P : StatsProvider) (pl : Plotter) (k : TwoSampleKind) (x y : Sample)
       (b : Bool) (p : TestParams) (r : Val × Val),
       computeTwo P k x y = .ok r →
       (fitTwo P pl k x y b p).params =
         { p with test_statistic := some r.1, test_pval := some r.2,
                  is_fitted := true } ∧
       (fitTwo P pl k x y b p).plots =
         (if b then
            [PlotCall.twoSample k.plotFn x y
              { p with test_statistic := some r.1, test_pval := some r.2,
                       is_fitted := true }]
          else [])) ∧
    (∀ (P : StatsProvider) (pl : Plotter) (k : OneSampleKind) (x : Sample)
       (b : Bool) (p : TestParams) (r : Val × Val),
       computeOne P k x = .ok r →
       (fitOne P pl k x b p).params =
         { p with test_statistic := some r.1, test_pval := some r.2,
                  is_fitted := true } ∧
       (fitOne P pl k x b p).plots =
         (if b then
            [PlotCall.oneSample k.plotFn x
              { p with test_statistic := some r.1, test_pval := some r.2,
                       is_fitted := true }]
          else [])) := by
  constructor
  · intro P pl k x y b p r h
    have hp := fitTwo_params_of_ok P pl k x y b p r h
    have hq := fitTwo_plots_of_ok P pl k x y b p r h
    rw [hp] at hq
    exact ⟨hp, hq⟩
  · intro P pl k x b p r h
    have hp := fitOne_params_of_ok P pl k x b p r h
    have hq := fitOne_plots_of_ok P pl k x b p r h
    rw [hp] at hq
    exact ⟨hp, hq⟩

/-- Witness for C2: the Levene test with plotting requested and the
Shapiro-Wilk test with plotting off. -/
theorem fit_computes_then_plots_witness :
    computeTwo okProvider TwoSampleKind.levene [1, 2] [3, 4] = .ok (5, 1/5) ∧
    computeOne okProvider OneSampleKind.shapiroWilk [9] = .ok (13, 1/13) ∧
    ((fitTwo okProvider okPlotter TwoSampleKind.levene [1, 2] [3, 4] true
        TwoSampleKind.levene.initParams).params =
      { TwoSampleKind.levene.initParams with
          test_statistic := some 5, test_pval := some (1/5),
          is_fitted := true } ∧
     (fitTwo okProvider okPlotter TwoSampleKind.levene [1, 2] [3, 4] true
        TwoSampleKind.levene.initParams).plots =
      (if true then
         [PlotCall.twoSample TwoSampleKind.levene.plotFn [1, 2] [3, 4]
           { TwoSampleKind.levene.initParams with
               test_statistic := some 5, test_pval := some (1/5),
               is_fitted := true }]
       else [])) ∧
    ((fitOne okProvider okPlotter OneSampleKind.shapiroWilk [9] false
        OneSampleKind.shapiroWilk.initParams).params =
      { OneSampleKind.shapiroWilk.initParams with
          test_statistic := some 13, test_pval := some (1/13),
          is_fitted := true } ∧
     (fitOne okProvider okPlotter OneSampleKind.shapiroWilk [9] false
        OneSampleKind.shapiroWilk.initParams).plots =
      (if false then
         [PlotCall.oneSample OneSampleKind.shapiroWilk.plotFn [9]
           { OneSampleKind.shapiroWilk.initParams with
               test_statistic := some 13, test_pval := some (1/13),
               is_fitted := true }]
       else [])) :=
  ⟨rfl, rfl,
   fit_computes_then_plots.1 okProvider okPlotter .levene [1, 2] [3, 4] true
     TwoSampleKind.levene.initParams (5, 1/5) rfl,
   fit_computes_then_plots.2 okProvider okPlotter .shapiroWilk [9] false
     OneSampleKind.shapiroWilk.initParams (13, 1/13) rfl⟩

/-- Claim C3: for every test kind, immediately after construction the owned
result has `is_fitted = false` with `test_statistic` and `test_pval` unset,
and after any successful `fit` call it has `is_fitted = true`. -/
theorem is_fitted_lifecycle :
    (∀ k : TwoSampleKind,
      k.initParams.is_fitted = false ∧
      k.initParams.test_statistic = none ∧
      k.initParams.test_pval = none) ∧
    (∀ k : OneSampleKind,
      k.initParams.is_fitted = false ∧
      k.initParams.test_statistic = none ∧
      k.initParams.test_pval = none) ∧
    (∀ (P : StatsProvider) (pl : Plotter) (k : TwoSampleKind) (x y : Sample)
       (b : Bool) (p : TestParams) (r : Val × Val),
       computeTwo P k x y = .ok r →
       (fitTwo P pl k x y b p).params.is_fitted = true) ∧
    (∀ (P : StatsProvider) (pl : Plotter) (k : OneSampleKind) (x : Sample)
       (b : Bool) (p : TestParams) (r : Val × Val),
       computeOne P k x = .ok r →
       (fitOne P pl k x b p).params.is_fitted = true) := by
  refine ⟨?_, ?_, ?_, ?_⟩
  · intro k
    cases k <;> simp [TwoSampleKind.initParams]
  · intro k
    cases k
    simp [OneSampleKind.initParams]
  · intro P pl k x y b p r h
    simp [fitTwo_params_of_ok P pl k x y b p r h]
  · intro P pl k x b p r h
    simp [fitOne_params_of_ok P pl k x b p r h]

/-- Witness for C3: after a successful Bartlett and Shapiro-Wilk fit the flag
is set. -/
theorem is_fitted_lifecycle_witness :
    computeTwo okProvider TwoSampleKind.bartlett [1] [2] = .ok (7, 1/7) ∧
    computeOne okProvider OneSampleKind.shapiroWilk [1] = .ok (13, 1/13) ∧
    (fitTwo okProvider okPlotter TwoSampleKind.bartlett [1] [2] false
      TwoSampleKind.bartlett.initParams).params.is_fitted = true ∧
    (fitOne okProvider okPlotter OneSampleKind.shapiroWilk [1] true
      OneSampleKind.shapiroWilk.initParams).params.is_fitted = true :=
  ⟨rfl, rfl,
   is_fitted_lifecycle.2.2.1 okProvider okPlotter .bartlett [1] [2] false
     TwoSampleKind.bartlett.initParams (7, 1/7) rfl,
   is_fitted_lifecycle.2.2.2 okProvider okPlotter .shapiroWilk [1] true
     OneSampleKind.shapiroWilk.initParams (13, 1/13) rfl⟩

/-- Claim C4: for every test kind, if the numeric procedure fails the error
propagates out of `fit` with no retry or default substitution, the owned
result is left exactly in its prior state, and no field is partially
overwritten (and no delegate runs). -/
theorem fit_error_propagates :
    (∀ (P : StatsProvider) (pl : Plotter) (k : TwoSampleKind) (x y : Sample)
       (b : Bool) (p : TestParams) (e : String),
       computeTwo P k x y = .error e →
       fitTwo P pl k x y b p = { params := p, plots := [], err := some e }) ∧
    (∀ (P : StatsProvider) (pl : Plotter) (k : OneSampleKind) (x : Sample)
       (b : Bool) (p : TestParams) (e : String),
       computeOne P k x = .error e →
       fitOne P pl k x b p = { params := p, plots := [], err := some e }) := by
  exact ⟨fun P pl k x y b p e h => fitTwo_of_error P pl k x y b p e h,
         fun P pl k x b p e h => fitOne_of_error P pl k x b p e h⟩

/-- Witness for C4: the failing provider on the Kolmogorov-Smirnov and
Shapiro-Wilk tests. -/
theorem fit_error_propagates_witness :
    computeTwo failProvider TwoSampleKind.kolmogorovSmirnov [] [] =
      .error ("degenerate input") ∧
    computeOne failProvider OneSampleKind.shapiroWilk [] =
      .error ("degenerate input") ∧
    fitTwo failProvider okPlotter TwoSampleKind.kolmogorovSmirnov [] [] true
      TwoSampleKind.kolmogorovSmirnov.initParams =
      { params := TwoSampleKind.kolmogorovSmirnov.initParams, plots := [],
        err := some ("degenerate input") } ∧
    fitOne failProvider okPlotter OneSampleKind.shapiroWilk [] true
      OneSampleKind.shapiroWilk.initParams =
      { params := OneSampleKind.shapiroWilk.initParams, plots := [],
        err := some ("degenerate input") } :=
  ⟨rfl, rfl,
   fit_error_propagates.1 failProvider okPlotter .kolmogorovSmirnov [] [] true
     TwoSampleKind.kolmogorovSmirnov.initParams ("degenerate input") rfl,
   fit_error_propagates.2 failProvider okPlotter .shapiroWilk [] true
     OneSampleKind.shapiroWilk.initParams ("degenerate input") rfl⟩

/-- Claim C5: for every test kind, if the visualization delegate fails after a
successful compute step, the already-written `test_statistic`, `test_pval`
and `is_fitted = true` remain intact in the owned result; the error from
`fit` does not roll back the computed values. -/
theorem plot_failure_preserves_result :
    (∀ (P : StatsProvider) (pl : Plotter) (k : TwoSampleKind) (x y : Sample)
       (p : TestParams) (r : Val × Val) (perr : String),
       computeTwo P k x y = .ok r →
       plotTwoDelegate pl k x y
         { p with test_statistic := some r.1, test_pval := some r.2,
                  is_fitted := true } = some perr →
       (fitTwo P pl k x y true p).err = some perr ∧
       (fitTwo P pl k x y true p).params.test_statistic = some r.1 ∧
       (fitTwo P pl k x y true p).params.test_pval = some r.2 ∧
       (fitTwo P pl k x y true p).params.is_fitted = true) ∧
    (∀ (P : StatsProvider) (pl : Plotter) (k : OneSampleKind) (x : Sample)
       (p : TestParams) (r : Val × Val) (perr : String),
       computeOne P k x = .ok r →
       plotOneDelegate pl k x
         { p with test_statistic := some r.1, test_pval := some r.2,
                  is_fitted := true } = some perr →
       (fitOne P pl k x true p).err = some perr ∧
       (fitOne P pl k x true p).params.test_statistic = some r.1 ∧
       (fitOne P pl k x true p).params.test_pval = some r.2 ∧
       (fitOne P pl k x true p).params.is_fitted = true) := by
  constructor
  · intro P pl k x y p r perr h hp
    refine ⟨?_, ?_, ?_, ?_⟩
    · simp [fitTwo, computeTest, h, hp]
    · simp [fitTwo_params_of_ok P pl k x y true p r h]
    · simp [fitTwo_params_of_ok P pl k x y true p r h]
    · simp [fitTwo_params_of_ok P pl k x y true p r h]
  · intro P pl k x p r perr h hp
    refine ⟨?_, ?_, ?_, ?_⟩
    · simp [fitOne, computeTestOne, h, hp]
    · simp [fitOne_params_of_ok P pl k x true p r h]
    · simp [fitOne_params_of_ok P pl k x true p r h]
    · simp [fitOne_params_of_ok P pl k x true p r h]

/-- Witness for C5: a successful Mann-Whitney U and Shapiro-Wilk compute
followed by a failing plot delegate. -/
theorem plot_failure_preserves_result_witness :
    computeTwo okProvider TwoSampleKind.mannWhitneyU [1] [2] = .ok (3, 1/3) ∧
    computeOne okProvider OneSampleKind.shapiroWilk [1] = .ok (13, 1/13) ∧
    ((fitTwo okProvider failPlotter TwoSampleKind.mannWhitneyU [1] [2] true
        TwoSampleKind.mannWhitneyU.initParams).err =
          some ("no display backend") ∧
     (fitTwo okProvider failPlotter TwoSampleKind.mannWhitneyU [1] [2] true
        TwoSampleKind.mannWhitneyU.initParams).params.test_statistic =
          some 3 ∧
     (fitTwo okProvider failPlotter TwoSampleKind.mannWhitneyU [1] [2] true
        TwoSampleKind.mannWhitneyU.initParams).params.test_pval =
          some (1/3) ∧
     (fitTwo okProvider failPlotter TwoSampleKind.mannWhitneyU [1] [2] true
        TwoSampleKind.mannWhitneyU.initParams).params.is_fitted = true) ∧
    ((fitOne okProvider failPlotter OneSampleKind.shapiroWilk [1] true
        OneSampleKind.shapiroWilk.initParams).err =
          some ("no display backend") ∧
     (fitOne okProvider failPlotter OneSampleKind.shapiroWilk [1] true
        OneSampleKind.shapiroWilk.initParams).params.test_statistic =
          some 13 ∧
     (fitOne okProvider failPlotter OneSampleKind.shapiroWilk [1] true
        OneSampleKind.shapiroWilk.initParams).params.test_pval =
          some (1/13) ∧
     (fitOne okProvider failPlotter OneSampleKind.shapiroWilk [1] true
        OneSampleKind.shapiroWilk.initParams).params.is_fitted = true) :=
  ⟨rfl, rfl,
   plot_failure_preserves_result.1 okProvider failPlotter .mannWhitneyU [1]
     [2] TwoSampleKind.mannWhitneyU.initParams (3, 1/3)
     ("no display backend") rfl rfl,
   plot_failure_preserves_result.2 okProvider failPlotter .shapiroWilk [1]
     OneSampleKind.shapiroWilk.initParams (13, 1/13)
     ("no display backend") rfl rfl⟩

/-- The plot flag never changes the record `fit` produces. -/
theorem fitTwo_params_plot_irrel (P : StatsProvider) (pl : Plotter)
    (k : TwoSampleKind) (x y : Sample) (p : TestParams) :
    (fitTwo P pl k x y true p).params = (fitTwo P pl k x y false p).params := by
  unfold fitTwo
  cases computeTest P k x y p <;> simp

/-- One-sample version of `fitTwo_params_plot_irrel`. -/
theorem fitOne_params_plot_irrel (P : StatsProvider) (pl : Plotter)
    (k : OneSampleKind) (x : Sample) (p : TestParams) :
    (fitOne P pl k x true p).params = (fitOne P pl k x false p).params := by
  unfold fitOne
  cases computeTestOne P k x p <;> simp

/-- A store with no allocated records, for concrete instantiations. -/
def emptyStore : Store := ⟨fun _ => {}, 0⟩

/-- Claim C6: for every test kind and sample sets s1, s2, fitting with s1 and
then with s2 on the same instance overwrites the prior statistic and p-value,
leaving the result record equal to that of a freshly constructed instance
fitted only with s2. -/
theorem refit_overwrites_prior_state :
    (∀ (P : StatsProvider) (pl : Plotter) (k : TwoSampleKind)
       (x1 y1 x2 y2 : Sample) (b1 b2 : Bool) (r : Val × Val),
       computeTwo P k x2 y2 = .ok r →
       (fitTwo P pl k x2 y2 b2
          (fitTwo P pl k x1 y1 b1 k.initParams).params).params =
       (fitTwo P pl k x2 y2 b2 k.initParams).params) ∧
    (∀ (P : StatsProvider) (pl : Plotter) (k : OneSampleKind)
       (x1 x2 : Sample) (b1 b2 : Bool) (r : Val × Val),
       computeOne P k x2 = .ok r →
       (fitOne P pl k x2 b2
          (fitOne P pl k x1 b1 k.initParams).params).params =
       (fitOne P pl k x2 b2 k.initParams).params) := by
  constructor
  · intro P pl k x1 y1 x2 y2 b1 b2 r h
    rw [fitTwo_params_of_ok P pl k x2 y2 b2 _ r h,
        fitTwo_params_of_ok P pl k x2 y2 b2 _ r h]
    exact TestParams.eq_of_fields _ _
      (fitTwo_frame P pl k x1 y1 b1 k.initParams).1 rfl rfl
      (fitTwo_frame P pl k x1 y1 b1 k.initParams).2 rfl
  · intro P pl k x1 x2 b1 b2 r h
    rw [fitOne_params_of_ok P pl k x2 b2 _ r h,
        fitOne_params_of_ok P pl k x2 b2 _ r h]
    exact TestParams.eq_of_fields _ _
      (fitOne_frame P pl k x1 b1 k.initParams).1 rfl rfl
      (fitOne_frame P pl k x1 b1 k.initParams).2 rfl

/-- Witness for C6: refit the Student and Shapiro-Wilk tests with fresh
samples. -/
theorem refit_overwrites_prior_state_witness :
    computeTwo okProvider TwoSampleKind.student [3] [4] = .ok (2, 1/2) ∧
    computeOne okProvider OneSampleKind.shapiroWilk [3] = .ok (13, 1/13) ∧
    (fitTwo okProvider okPlotter TwoSampleKind.student [3] [4] false
       (fitTwo okProvider okPlotter TwoSampleKind.student [1] [2] true
          TwoSampleKind.student.initParams).params).params =
      (fitTwo okProvider okPlotter TwoSampleKind.student [3] [4] false
         TwoSampleKind.student.initParams).params ∧
    (fitOne okProvider okPlotter OneSampleKind.shapiroWilk [3] false
       (fitOne okProvider okPlotter OneSampleKind.shapiroWilk [1] true
          OneSampleKind.shapiroWilk.initParams).params).params =
      (fitOne okProvider okPlotter OneSampleKind.shapiroWilk [3] false
         OneSampleKind.shapiroWilk.initParams).params :=
  ⟨rfl, rfl,
   refit_overwrites_prior_state.1 okProvider okPlotter .student [1] [2] [3]
     [4] true false (2, 1/2) rfl,
   refit_overwrites_prior_state.2 okProvider okPlotter .shapiroWilk [1] [3]
     true false (13, 1/13) rfl⟩

/-- Claim C7: for every test kind, the result's `test_name` and `test_h0` are
set at construction and left unchanged by every `fit` call, regardless of the
samples or the `plot_results` flag. -/
theorem name_h0_fixed_at_construction :
    (∀ k : TwoSampleKind,
      k.initParams.test_name.isSome = true ∧
      k.initParams.test_h0.isSome = true) ∧
    (∀ k : OneSampleKind,
      k.initParams.test_name.isSome = true ∧
      k.initParams.test_h0.isSome = true) ∧
    (∀ (P : StatsProvider) (pl : Plotter) (k : TwoSampleKind) (x y : Sample)
       (b : Bool) (p : TestParams),
       (fitTwo P pl k x y b p).params.test_name = p.test_name ∧
       (fitTwo P pl k x y b p).params.test_h0 = p.test_h0) ∧
    (∀ (P : StatsProvider) (pl : Plotter) (k : OneSampleKind) (x : Sample)
       (b : Bool) (p : TestParams),
       (fitOne P pl k x b p).params.test_name = p.test_name ∧
       (fitOne P pl k x b p).params.test_h0 = p.test_h0) := by
  refine ⟨?_, ?_, ?_, ?_⟩
  · intro k
    cases k <;> simp [TwoSampleKind.initParams]
  · intro k
    cases k
    simp [OneSampleKind.initParams]
  · intro P pl k x y b p
    exact fitTwo_frame P pl k x y b p
  · intro P pl k x b p
    exact fitOne_frame P pl k x b p

/-- Claim C8: for every test kind and identical input sample(s), the numeric
output fields after `fit` with `plot_results = true` equal those after `fit`
with `plot_results = false`. -/
theorem plot_flag_noninterference :
    (∀ (P : StatsProvider) (pl : Plotter) (k : TwoSampleKind) (x y : Sample)
       (p : TestParams),
       (fitTwo P pl k x y true p).params.test_statistic =
         (fitTwo P pl k x y false p).params.test_statistic ∧
       (fitTwo P pl k x y true p).params.test_pval =
         (fitTwo P pl k x y false p).params.test_pval ∧
       (fitTwo P pl k x y true p).params.is_fitted =
         (fitTwo P pl k x y false p).params.is_fitted) ∧
    (∀ (P : StatsProvider) (pl : Plotter) (k : OneSampleKind) (x : Sample)
       (p : TestParams),
       (fitOne P pl k x true p).params.test_statistic =
         (fitOne P pl k x false p).params.test_statistic ∧
       (fitOne P pl k x true p).params.test_pval =
         (fitOne P pl k x false p).params.test_pval ∧
       (fitOne P pl k x true p).params.is_fitted =
         (fitOne P pl k x false p).params.is_fitted) := by
  constructor
  · intro P pl k x y p
    rw [fitTwo_params_plot_irrel P pl k x y p]
    exact ⟨rfl, rfl, rfl⟩
  · intro P pl k x p
    rw [fitOne_params_plot_irrel P pl k x p]
    exact ⟨rfl, rfl, rfl⟩

/-- Claim C9: every test instance exclusively owns its own distinct result
record, created at construction: construction allocates a fresh address
holding the initial record, two instances constructed in sequence have
different addresses, and `fit` on one instance leaves every other address of
the store unchanged. -/
theorem result_record_ownership :
    (∀ (σ : Store) (k : TwoSampleKind),
      (constructTwoS k σ).1.paramsRef = σ.next ∧
      (constructTwoS k σ).2.next = σ.next + 1 ∧
      readRef (constructTwoS k σ).2 (constructTwoS k σ).1.paramsRef =
        k.initParams) ∧
    (∀ (σ : Store) (k : OneSampleKind),
      (constructOneS k σ).1.paramsRef = σ.next ∧
      (constructOneS k σ).2.next = σ.next + 1 ∧
      readRef (constructOneS k σ).2 (constructOneS k σ).1.paramsRef =
        k.initParams) ∧
    (∀ (σ : Store) (k1 k2 : TwoSampleKind),
      (constructTwoS k2 (constructTwoS k1 σ).2).1.paramsRef ≠
        (constructTwoS k1 σ).1.paramsRef) ∧
    (∀ (σ : Store) (k1 : TwoSampleKind) (k2 : OneSampleKind),
      (constructOneS k2 (constructTwoS k1 σ).2).1.paramsRef ≠
        (constructTwoS k1 σ).1.paramsRef) ∧
    (∀ (P : StatsProvider) (pl : Plotter) (t : TInstance) (x y : Sample)
       (b : Bool) (σ : Store) (j : Nat),
       j ≠ t.paramsRef →
       readRef (fitTwoS P pl t x y b σ).1 j = readRef σ j) ∧
    (∀ (P : StatsProvider) (pl : Plotter) (t : OInstance) (x : Sample)
       (b : Bool) (σ : Store) (j : Nat),
       j ≠ t.paramsRef →
       readRef (fitOneS P pl t x b σ).1 j = readRef σ j) := by
  refine ⟨?_, ?_, ?_, ?_, ?_, ?_⟩
  · intro σ k
    refine ⟨rfl, rfl, ?_⟩
    simp [constructTwoS, readRef]
  · intro σ k
    refine ⟨rfl, rfl, ?_⟩
    simp [constructOneS, readRef]
  · intro σ k1 k2
    simp [constructTwoS]
  · intro σ k1 k2
    simp [constructOneS, constructTwoS]
  · intro P pl t x y b σ j hj
    simp [fitTwoS, readRef, hj]
  · intro P pl t x b σ j hj
    simp [fitOneS, readRef, hj]

/-- Witness for C9: fitting an instance whose record lives at address 1 leaves
address 0 untouched, for both arities. -/
theorem result_record_ownership_witness :
    (0 : Nat) ≠ (1 : Nat) ∧
    readRef (fitTwoS okProvider okPlotter ⟨TwoSampleKind.student, 1⟩ [1] [2]
      true emptyStore).1 0 = readRef emptyStore 0 ∧
    readRef (fitOneS okProvider okPlotter ⟨OneSampleKind.shapiroWilk, 1⟩ [1]
      true emptyStore).1 0 = readRef emptyStore 0 :=
  ⟨by decide,
   result_record_ownership.2.2.2.2.1 okProvider okPlotter
     ⟨TwoSampleKind.student, 1⟩ [1] [2] true emptyStore 0 (by decide),
   result_record_ownership.2.2.2.2.2 okProvider okPlotter
     ⟨OneSampleKind.shapiroWilk, 1⟩ [1] true emptyStore 0 (by decide)⟩

/-- Claim C10: for every pair of input samples, the Student test's compute
step invokes the two-sample t-test with the pooled, equal-variance estimator
(the `equal_var` flag fixed to true), for every numeric provider; the flag is
a constant of the dispatch, not an input. -/
theorem student_uses_equal_variance :
    ∀ (P : StatsProvider) (x y : Sample),
      computeTwo P TwoSampleKind.student x y = P.ttest_ind x y true := by
  intro P x y
  rfl

end StatisticalTesting
